import Mathlib

/-!
Verification of the contenox/hook-echo service.

The development shallowly embeds the two source modules:
  - `src/echo/config.py` — the `Settings` class: compiled-in defaults,
    each overridable by an environment variable, extra keys ignored;
  - `src/main.py` — logging setup, conditional tracing setup, metrics
    setup, and the four request handlers (echo, health GET/HEAD, ready).

Handlers are pure: each produces a status code, an optional JSON body and
a list of structured log calls.  The HTTP layer, the settings loader, the
structlog rendering pipeline and the Prometheus instrumentator are
external libraries configured (not defined) by the source; where a claim
depends on their behaviour the definition is modelled from the spec and
says so in its doc comment.
-/

namespace EchoServer

/-- Flat JSON values, the payloads exchanged by this service: request and
response bodies are JSON objects whose values are strings, numbers,
booleans or null (the echo API uses only string values). -/
inductive JVal where
  | str : String → JVal
  | int : Int → JVal
  | bool : Bool → JVal
  | null : JVal
deriving DecidableEq

/-- One entry of the `SERVERS` list of `src/echo/config.py`. -/
structure Server where
  url : String
  description : String
deriving DecidableEq

/-- The settings object of `src/echo/config.py` (class `Settings`). -/
structure Settings where
  APP_NAME : String
  LOG_LEVEL : String
  APP_VERSION : String
  CONTACT_NAME : String
  CONTACT_URL : String
  CONTACT_EMAIL : String
  SERVERS : List Server
  OTEL_EXPORTER_OTLP_ENDPOINT : String
deriving DecidableEq

/-- Environment overrides visible to the settings loader: one optional
typed value per declared field of `Settings`, plus the remaining
(unrecognized) environment bindings, which `extra='ignore'` discards. -/
structure EnvOverrides where
  APP_NAME : Option String := none
  LOG_LEVEL : Option String := none
  APP_VERSION : Option String := none
  CONTACT_NAME : Option String := none
  CONTACT_URL : Option String := none
  CONTACT_EMAIL : Option String := none
  SERVERS : Option (List Server) := none
  OTEL_EXPORTER_OTLP_ENDPOINT : Option String := none
  unrecognized : List (String × String) := []

/-- Modelled from the spec: the external settings loader
(pydantic-settings `BaseSettings`, configured but not defined in
`src/echo/config.py`) resolves each declared setting from an optional
environment override, else the compiled-in default written in
`src/echo/config.py`; environment keys outside the declared fields are
ignored, not errors. -/
def Settings.resolve (env : EnvOverrides) : Settings where
  APP_NAME := env.APP_NAME.getD "Echo Tool Server"
  LOG_LEVEL := env.LOG_LEVEL.getD "WARN"
  APP_VERSION := env.APP_VERSION.getD "0.1.12"
  CONTACT_NAME := env.CONTACT_NAME.getD "API Support"
  CONTACT_URL := env.CONTACT_URL.getD "https://www.example.com/support"
  CONTACT_EMAIL := env.CONTACT_EMAIL.getD "support@example.com"
  SERVERS := env.SERVERS.getD [{ url := "http://localhost:8000", description := "Development Server" }]
  OTEL_EXPORTER_OTLP_ENDPOINT := env.OTEL_EXPORTER_OTLP_ENDPOINT.getD ""

/-- Severity levels used by the structlog/stdlib logging stack. -/
inductive LogLevel where
  | debug
  | info
  | warning
  | error
  | critical
deriving DecidableEq

/-- Numeric severity of each level, as in the Python `logging` module. -/
def LogLevel.toNat : LogLevel → Nat
  | .debug => 10
  | .info => 20
  | .warning => 30
  | .error => 40
  | .critical => 50

/-- Uppercase name of each level. -/
def LogLevel.upperName : LogLevel → String
  | .debug => "DEBUG"
  | .info => "INFO"
  | .warning => "WARNING"
  | .error => "ERROR"
  | .critical => "CRITICAL"

/-- One structured log call: severity, event name, caller-supplied
key/value fields (e.g. `logger.info("echo.request", input=...)`). -/
structure LogCall where
  level : LogLevel
  event : String
  fields : List (String × String)
deriving DecidableEq

/-- One handler response as the HTTP layer returns it: status code,
optional JSON-object body (`none` for bodyless responses), and the log
calls the handler issued while producing it. -/
structure HttpResponse where
  status : Nat
  body : Option (List (String × JVal))
  logs : List LogCall
deriving DecidableEq

/-- Request methods used by the service routes. -/
inductive Method where
  | get
  | post
  | head
deriving DecidableEq

/-- One inbound HTTP request: method, path, and the parsed JSON-object
body when the request carried one (`none` covers absent or non-object
bodies, which pydantic validation rejects). -/
structure Request where
  method : Method
  path : String
  body : Option (List (String × JVal))
deriving DecidableEq

/-- The request model of the echo route (`class ToolInput(BaseModel)` in
`src/main.py`): a single required string field `input`. -/
structure ToolInput where
  input : String
deriving DecidableEq

/-- Validation of a request body against `ToolInput`: the body must be a
JSON object whose `input` member is a string; extra members are ignored
(pydantic `BaseModel` default).  `none` is the 422 rejection the
framework produces before the handler body runs. -/
def ToolInput.validate : Option (List (String × JVal)) → Option ToolInput
  | none => none
  | some fields =>
    match List.lookup "input" fields with
    | some (JVal.str s) => some { input := s }
    | _ => none

/-- The echo handler body (`src/main.py` lines 102-108): log the request,
build `"Echo: "` followed by the input verbatim, log the response and
return it with status 200. -/
def echo (payload : ToolInput) : HttpResponse :=
  let result := "Echo: " ++ payload.input
  { status := 200
    body := some [("output", JVal.str result)]
    logs := [
      { level := .info, event := "echo.request", fields := [("input", payload.input)] },
      { level := .info, event := "echo.response", fields := [("output", result)] }] }

/-- The echo route as served: framework validation first (a client error
with no handler log on failure), then the handler body. -/
def echoRoute (body : Option (List (String × JVal))) : HttpResponse :=
  match ToolInput.validate body with
  | none => { status := 422, body := some [("detail", JVal.str "validation error")], logs := [] }
  | some payload => echo payload

/-- The health handler (`src/main.py` lines 111-129), registered for both
GET and HEAD on `/health`. -/
def health_check : HttpResponse :=
  { status := 200
    body := some [("status", JVal.str "ok")]
    logs := [{ level := .info, event := "health.check", fields := [] }] }

/-- The readiness handler (`src/main.py` lines 132-141). -/
def ready_check : HttpResponse :=
  { status := 200
    body := some [("status", JVal.str "ok")]
    logs := [{ level := .info, event := "ready.check", fields := [] }] }

/-- Per-route request counters, the only mutable state of the process. -/
def MetricsState : Type := String → Nat

/-- Atomic increment of one route counter. -/
def increment (m : MetricsState) (route : String) : MetricsState :=
  fun x => if x = route then m x + 1 else m x

/-- Whole-process mutable state: the metrics counters. -/
structure ProcState where
  metrics : MetricsState

/-- State of the process before any request has been served. -/
def initialState : ProcState := { metrics := fun _ => 0 }

/-- Modelled from the spec: the instrumented application wired by
`setup_metrics` in `src/main.py`.  Each inbound request is routed to its
handler and counted on its route; `GET /metrics` serves the aggregated
snapshot read-only (text exposition, no JSON body here) and mutates no
counter; unmatched routes get the framework 404. -/
def dispatch (st : ProcState) (req : Request) : ProcState × HttpResponse :=
  match req.method, req.path with
  | .post, "/echo" => ({ metrics := increment st.metrics "/echo" }, echoRoute req.body)
  | .get, "/health" => ({ metrics := increment st.metrics "/health" }, health_check)
  | .head, "/health" =>
    ({ metrics := increment st.metrics "/health" }, { health_check with body := none })
  | .get, "/ready" => ({ metrics := increment st.metrics "/ready" }, ready_check)
  | .get, "/metrics" => (st, { status := 200, body := none, logs := [] })
  | _, _ => (st, { status := 404, body := some [("detail", JVal.str "Not Found")], logs := [] })

/-- Sequential processing of a list of requests (any interleaving of
concurrent requests, since each counter update is atomic). -/
def processAll (st : ProcState) (reqs : List Request) : ProcState :=
  reqs.foldl (fun s q => (dispatch s q).1) st

/-- The resource descriptor built by `setup_tracing`: the attribute set
tagging exported spans. -/
structure Resource where
  attributes : List (String × String)
deriving DecidableEq

/-- Observable effects of `setup_tracing`: the log calls it issues, the
resource of the installed span provider (if any), the endpoint of the
attached batching span exporter (if any; `none` means no span-exporting
connection is attempted), and whether the app was instrumented. -/
structure TracingEffects where
  logs : List LogCall
  installedProvider : Option Resource
  batchExporterEndpoint : Option String
  appInstrumented : Bool
deriving DecidableEq

/-- The tracing setup of `src/main.py` lines 38-59: when the configured
endpoint is empty (falsy) it logs one informational event and returns;
otherwise it builds a resource tagged with service name and version,
installs a provider with that resource, attaches a `BatchSpanProcessor`
over an OTLP exporter for the endpoint, instruments the app and logs
once. -/
def setup_tracing (s : Settings) : TracingEffects :=
  if s.OTEL_EXPORTER_OTLP_ENDPOINT = "" then
    { logs := [{ level := .info,
                 event := "Tracing disabled because OTEL_EXPORTER_OTLP_ENDPOINT is empty",
                 fields := [] }]
      installedProvider := none
      batchExporterEndpoint := none
      appInstrumented := false }
  else
    { logs := [{ level := .info,
                 event := "Tracing enabled, exporting to " ++ s.OTEL_EXPORTER_OTLP_ENDPOINT,
                 fields := [] }]
      installedProvider := some
        { attributes := [("service.name", s.APP_NAME), ("service.version", s.APP_VERSION)] }
      batchExporterEndpoint := some s.OTEL_EXPORTER_OTLP_ENDPOINT
      appInstrumented := true }

/-- Initialization actions of the module body of `src/main.py`. -/
inductive InitStep where
  | logging
  | tracingDecision
  | metrics
  | routes
deriving DecidableEq

/-- The module body of `src/main.py` runs top to bottom exactly once per
process: `setup_logging()` (line 67), app construction and
`setup_tracing(app)` (line 94), `setup_metrics(app)` (line 95), then
route registration.  The tracing decision is therefore evaluated exactly
once per process lifetime. -/
def startupSteps : List InitStep :=
  [InitStep.logging, InitStep.tracingDecision, InitStep.metrics, InitStep.routes]

/-- Uppercasing of a string, as Python `str.upper()` used on
`settings.LOG_LEVEL` in `setup_logging` (`src/main.py` line 35). -/
def strUpper (s : String) : String := ⟨s.data.map Char.toUpper⟩

/-- Modelled from the spec: the level-name table of the Python `logging`
module, which `logging.basicConfig(level=...)` uses to turn the
configured name into the numeric minimum severity of the process-wide
sink. -/
def pythonLevelNum : String → Option Nat
  | "CRITICAL" => some 50
  | "FATAL" => some 50
  | "ERROR" => some 40
  | "WARNING" => some 30
  | "WARN" => some 30
  | "INFO" => some 20
  | "DEBUG" => some 10
  | "NOTSET" => some 0
  | _ => none

/-- Effective configuration of the process-wide log sink: the numeric
minimum severity. -/
structure LogConfig where
  threshold : Nat
deriving DecidableEq

/-- The logging setup of `src/main.py` lines 21-35: structlog is wired to
render through the stdlib logger whose level is
`settings.LOG_LEVEL.upper()`; `none` models the startup failure on a
level name the `logging` module does not know. -/
def setup_logging (s : Settings) : Option LogConfig :=
  (pythonLevelNum (strUpper s.LOG_LEVEL)).map LogConfig.mk

/-- A UTC wall-clock instant, the input of the ISO timestamper. -/
structure Timestamp where
  year : Nat
  month : Nat
  day : Nat
  hour : Nat
  minute : Nat
  second : Nat
deriving DecidableEq

/-- Two-digit zero padding for timestamp components. -/
def pad2 (n : Nat) : String :=
  if n < 10 then "0" ++ toString n else toString n

/-- ISO-8601 rendering of a UTC instant, as the configured
`TimeStamper(fmt="iso", utc=True)` processor produces. -/
def isoUtc (t : Timestamp) : String :=
  toString t.year ++ "-" ++ pad2 t.month ++ "-" ++ pad2 t.day ++ "T"
    ++ pad2 t.hour ++ ":" ++ pad2 t.minute ++ ":" ++ pad2 t.second ++ "Z"

/-- JSON string escaping of one character. -/
def escapeChar (c : Char) : String :=
  if c = '"' then "\\\""
  else if c = '\\' then "\\\\"
  else if c = '\n' then "\\n"
  else if c = '\r' then "\\r"
  else if c = '\t' then "\\t"
  else String.singleton c

/-- JSON string escaping of a whole string. -/
def escapeString (s : String) : String :=
  s.data.foldl (fun acc c => acc ++ escapeChar c) ""

/-- One rendered log record before serialization: timestamp, uppercase
level name, event, caller-supplied fields. -/
structure LogLine where
  timestamp : String
  level : String
  event : String
  fields : List (String × String)
deriving DecidableEq

/-- Modelled from the spec: the processor chain configured by
`setup_logging` (`add_log_level`, ISO-UTC `TimeStamper`, `JSONRenderer`)
turns one accepted log call into one record carrying the ISO-8601 UTC
timestamp, the uppercase level name and the caller-supplied fields. -/
def renderLine (ts : Timestamp) (c : LogCall) : LogLine :=
  { timestamp := isoUtc ts
    level := c.level.upperName
    event := c.event
    fields := c.fields }

/-- Serialization of one key/value field of a log record. -/
def serializeField (kv : String × String) : String :=
  ", \"" ++ escapeString kv.1 ++ "\": \"" ++ escapeString kv.2 ++ "\""

/-- Serialization of all key/value fields of a log record. -/
def serializeFields : List (String × String) → String
  | [] => ""
  | kv :: rest => serializeField kv ++ serializeFields rest

/-- Serialization of a log record as one JSON object on one line. -/
def serializeLine (l : LogLine) : String :=
  "\x7b\"event\": \"" ++ escapeString l.event ++ "\""
    ++ serializeFields l.fields
    ++ ", \"level\": \"" ++ escapeString l.level ++ "\""
    ++ ", \"timestamp\": \"" ++ escapeString l.timestamp ++ "\"\x7d"

/-- Modelled from the spec: the process-wide sink drops a call strictly
below the configured minimum severity (not buffering it), and renders
every other call as a single JSON line on standard output. -/
def emitLog (cfg : LogConfig) (ts : Timestamp) (c : LogCall) : Option String :=
  if c.level.toNat < cfg.threshold then none
  else some (serializeLine (renderLine ts c))

/-- A string occupying a single line: no newline character occurs in it. -/
abbrev NoNewline (s : String) : Prop := ∀ c ∈ s.data, c ≠ '\n'

/-! Helper lemmas. -/

theorem noNewline_append {a b : String} (ha : NoNewline a) (hb : NoNewline b) :
    NoNewline (a ++ b) := by
  intro c hc
  rw [String.data_append] at hc
  rcases List.mem_append.mp hc with h | h
  · exact ha c h
  · exact hb c h

theorem noNewline_escapeChar (c : Char) : NoNewline (escapeChar c) := by
  unfold escapeChar
  split_ifs with h1 h2 h3 h4 h5
  · decide
  · decide
  · decide
  · decide
  · decide
  · intro x hx
    have hxc : x = c := by
      simpa [String.singleton] using hx
    subst hxc
    exact h3

theorem noNewline_foldl_escape (l : List Char) (acc : String) (hacc : NoNewline acc) :
    NoNewline (l.foldl (fun a c => a ++ escapeChar c) acc) := by
  induction l generalizing acc with
  | nil => exact hacc
  | cons c rest ih =>
    exact ih (acc ++ escapeChar c) (noNewline_append hacc (noNewline_escapeChar c))

theorem noNewline_empty : NoNewline "" := by
  intro c hc
  cases hc

theorem noNewline_escapeString (s : String) : NoNewline (escapeString s) :=
  noNewline_foldl_escape s.data "" noNewline_empty

theorem noNewline_serializeField (kv : String × String) :
    NoNewline (serializeField kv) := by
  unfold serializeField
  repeat
    first
    | exact noNewline_escapeString _
    | apply noNewline_append
    | decide

theorem noNewline_serializeFields (fs : List (String × String)) :
    NoNewline (serializeFields fs) := by
  induction fs with
  | nil => exact noNewline_empty
  | cons kv rest ih =>
    exact noNewline_append (noNewline_serializeField kv) ih

theorem noNewline_serializeLine (l : LogLine) : NoNewline (serializeLine l) := by
  unfold serializeLine
  repeat
    first
    | exact noNewline_escapeString _
    | exact noNewline_serializeFields _
    | apply noNewline_append
    | decide

theorem increment_le (m : MetricsState) (route r : String) :
    m r ≤ increment m route r := by
  unfold increment
  split
  · exact Nat.le_succ _
  · exact Nat.le_refl _

theorem dispatch_metrics_le (st : ProcState) (q : Request) (r : String) :
    st.metrics r ≤ ((dispatch st q).1).metrics r := by
  unfold dispatch
  split
  · exact increment_le st.metrics "/echo" r
  · exact increment_le st.metrics "/health" r
  · exact increment_le st.metrics "/health" r
  · exact increment_le st.metrics "/ready" r
  · exact Nat.le_refl _
  · exact Nat.le_refl _

theorem processAll_metrics_le (st : ProcState) (reqs : List Request) (r : String) :
    st.metrics r ≤ (processAll st reqs).metrics r := by
  induction reqs generalizing st with
  | nil => exact Nat.le_refl _
  | cons q rest ih =>
    exact Nat.le_trans (dispatch_metrics_le st q r) (ih (dispatch st q).1)

theorem dispatch_echo_count (st : ProcState) (q : Request)
    (hm : q.method = Method.post) (hp : q.path = "/echo") :
    ((dispatch st q).1).metrics "/echo" = st.metrics "/echo" + 1 := by
  obtain ⟨m, p, b⟩ := q
  simp only at hm hp
  subst hm
  subst hp
  simp [dispatch, increment]

/-! Theorems for the claims. -/

/-- C1: for every string s (empty, whitespace-only and Unicode included)
and every process state, a POST /echo request with body
`\x7b"input": s\x7d` returns status 200 with body
`\x7b"output": "Echo: " ++ s\x7d`: the output is the fixed text
`"Echo: "` concatenated with the input verbatim, character for character,
with no other transformation. -/
theorem c1_echo_returns_prefixed_input (st : ProcState) (s : String) :
    (dispatch st { method := .post, path := "/echo", body := some [("input", JVal.str s)] }).2.status
      = 200
    ∧ (dispatch st { method := .post, path := "/echo", body := some [("input", JVal.str s)] }).2.body
      = some [("output", JVal.str ("Echo: " ++ s))]
    ∧ ("Echo: " ++ s).data = "Echo: ".data ++ s.data := by
  refine ⟨?_, ?_, String.data_append _ _⟩
  · simp [dispatch, echoRoute, ToolInput.validate, echo]
  · simp [dispatch, echoRoute, ToolInput.validate, echo]

/-- C2: a POST /echo whose body fails `ToolInput` validation (missing or
non-string `input`, or no JSON object at all) is rejected as a client
error (422) with no log event emitted for the call, so the handler body
never runs; and once validation passes the handler cannot fail: the
response is exactly the pure handler result, with status 200. -/
theorem c2_echo_validation_gate (st : ProcState) (b : Option (List (String × JVal))) :
    (ToolInput.validate b = none →
      (dispatch st { method := .post, path := "/echo", body := b }).2
        = { status := 422, body := some [("detail", JVal.str "validation error")], logs := [] })
    ∧ (∀ p, ToolInput.validate b = some p →
      (dispatch st { method := .post, path := "/echo", body := b }).2 = echo p
      ∧ (dispatch st { method := .post, path := "/echo", body := b }).2.status = 200) := by
  constructor
  · intro hv
    simp [dispatch, echoRoute, hv]
  · intro p hv
    constructor
    · simp [dispatch, echoRoute, hv]
    · simp [dispatch, echoRoute, hv, echo]

/-- Witness for C2 at concrete inputs: a body without `input` is answered
with 422 and an empty log list, and a body with a string `input`
validates and is answered with 200. -/
theorem c2_witness :
    (dispatch initialState { method := .post, path := "/echo", body := some [("x", JVal.str "y")] }).2
      = { status := 422, body := some [("detail", JVal.str "validation error")], logs := [] }
    ∧ (dispatch initialState { method := .post, path := "/echo", body := some [("input", JVal.str "hi")] }).2.status
      = 200 :=
  ⟨(c2_echo_validation_gate initialState (some [("x", JVal.str "y")])).1 (by decide),
   ((c2_echo_validation_gate initialState (some [("input", JVal.str "hi")])).2
      { input := "hi" } (by decide)).2⟩

/-- C3: in every process state, GET /health returns status 200 with body
exactly `\x7b"status": "ok"\x7d`, and HEAD /health returns the identical
status code with an empty body. -/
theorem c3_health_ok (st : ProcState) :
    (dispatch st { method := .get, path := "/health", body := none }).2
      = { status := 200, body := some [("status", JVal.str "ok")],
          logs := [{ level := .info, event := "health.check", fields := [] }] }
    ∧ (dispatch st { method := .head, path := "/health", body := none }).2
      = { status := 200, body := none,
          logs := [{ level := .info, event := "health.check", fields := [] }] }
    ∧ (dispatch st { method := .head, path := "/health", body := none }).2.status
      = (dispatch st { method := .get, path := "/health", body := none }).2.status :=
  ⟨rfl, rfl, rfl⟩

/-- C4: in every process state, GET /ready returns status 200 with body
`\x7b"status": "ok"\x7d`, and the readiness body is the same fixed
constant as the health body: readiness and health are identical. -/
theorem c4_ready_ok (st : ProcState) :
    (dispatch st { method := .get, path := "/ready", body := none }).2
      = { status := 200, body := some [("status", JVal.str "ok")],
          logs := [{ level := .info, event := "ready.check", fields := [] }] }
    ∧ ready_check.body = health_check.body
    ∧ ready_check.body = some [("status", JVal.str "ok")]
    ∧ ready_check.status = health_check.status :=
  ⟨rfl, rfl, rfl, rfl⟩

/-- C5: tracing setup logs exactly one informational event in either
case; when the configured endpoint is empty it installs no span provider
and attaches no span-exporting connection, and when it is non-empty it
installs a provider whose resource is tagged with the service name and
version, attaches a batching exporter for the configured endpoint and
instruments the app; the module body evaluates the tracing decision
exactly once per process lifetime. -/
theorem c5_tracing_decision (s : Settings) :
    (setup_tracing s).logs.length = 1
    ∧ (∀ c ∈ (setup_tracing s).logs, c.level = LogLevel.info)
    ∧ (setup_tracing s).installedProvider
      = (if s.OTEL_EXPORTER_OTLP_ENDPOINT = "" then none
         else some { attributes :=
           [("service.name", s.APP_NAME), ("service.version", s.APP_VERSION)] })
    ∧ (setup_tracing s).batchExporterEndpoint
      = (if s.OTEL_EXPORTER_OTLP_ENDPOINT = "" then none
         else some s.OTEL_EXPORTER_OTLP_ENDPOINT)
    ∧ (setup_tracing s).appInstrumented
      = (if s.OTEL_EXPORTER_OTLP_ENDPOINT = "" then false else true)
    ∧ startupSteps.count InitStep.tracingDecision = 1 := by
  unfold setup_tracing
  split
  · refine ⟨rfl, ?_, by simp_all, by simp_all, by simp_all, by decide⟩
    intro c hc
    simp at hc
    rw [hc]
  · refine ⟨rfl, ?_, by simp_all, by simp_all, by simp_all, by decide⟩
    intro c hc
    simp at hc
    rw [hc]

/-- C6: a log call strictly below the configured minimum severity is
dropped (the sink emits nothing for it), every other call is emitted as
the serialization of one rendered record, and that record carries the
ISO-8601 UTC timestamp, the level name in uppercase (uppercasing it is
the identity) and exactly the caller-supplied fields, serialized as a
single line containing no newline. -/
theorem c6_log_gate_and_render (cfg : LogConfig) (ts : Timestamp) (c : LogCall) :
    emitLog cfg ts c
      = (if c.level.toNat < cfg.threshold then none
         else some (serializeLine (renderLine ts c)))
    ∧ (renderLine ts c).timestamp = isoUtc ts
    ∧ (renderLine ts c).level = c.level.upperName
    ∧ strUpper ((renderLine ts c).level) = (renderLine ts c).level
    ∧ (renderLine ts c).fields = c.fields
    ∧ NoNewline (serializeLine (renderLine ts c)) := by
  refine ⟨rfl, rfl, rfl, ?_, rfl, noNewline_serializeLine _⟩
  show strUpper c.level.upperName = c.level.upperName
  cases c.level <;> decide

/-- C7: every setting resolves to its environment override when one is
present and to the compiled-in default of `src/echo/config.py` otherwise
(LOG_LEVEL defaults to WARN, the OTLP endpoint to the empty string);
unrecognized environment keys never change the resolved settings; and
with no OTLP override the default empty endpoint disables tracing: no
provider is installed and no exporter is attached. -/
theorem c7_settings_resolution (env : EnvOverrides) :
    (Settings.resolve env).APP_NAME = env.APP_NAME.getD "Echo Tool Server"
    ∧ (Settings.resolve env).LOG_LEVEL = env.LOG_LEVEL.getD "WARN"
    ∧ (Settings.resolve env).APP_VERSION = env.APP_VERSION.getD "0.1.12"
    ∧ (Settings.resolve env).CONTACT_NAME = env.CONTACT_NAME.getD "API Support"
    ∧ (Settings.resolve env).CONTACT_URL
      = env.CONTACT_URL.getD "https://www.example.com/support"
    ∧ (Settings.resolve env).CONTACT_EMAIL = env.CONTACT_EMAIL.getD "support@example.com"
    ∧ (Settings.resolve env).SERVERS
      = env.SERVERS.getD [{ url := "http://localhost:8000", description := "Development Server" }]
    ∧ (Settings.resolve env).OTEL_EXPORTER_OTLP_ENDPOINT
      = env.OTEL_EXPORTER_OTLP_ENDPOINT.getD ""
    ∧ (∀ extra, Settings.resolve { env with unrecognized := extra } = Settings.resolve env)
    ∧ (env.OTEL_EXPORTER_OTLP_ENDPOINT = none →
      (setup_tracing (Settings.resolve env)).installedProvider = none
      ∧ (setup_tracing (Settings.resolve env)).batchExporterEndpoint = none) := by
  refine ⟨rfl, rfl, rfl, rfl, rfl, rfl, rfl, rfl, fun extra => rfl, ?_⟩
  intro h
  have hempty : (Settings.resolve env).OTEL_EXPORTER_OTLP_ENDPOINT = "" := by
    simp [Settings.resolve, h]
  constructor
  · simp [setup_tracing, hempty]
  · simp [setup_tracing, hempty]

/-- Witness for C7 at the empty environment: LOG_LEVEL resolves to its
default WARN, and the defaulted empty OTLP endpoint leaves tracing
disabled. -/
theorem c7_witness :
    (Settings.resolve {}).LOG_LEVEL = "WARN"
    ∧ (setup_tracing (Settings.resolve {})).installedProvider = none := by
  have h := c7_settings_resolution {}
  exact ⟨h.2.1, (h.2.2.2.2.2.2.2.2.2 rfl).1⟩

/-- C8: the per-route request counters only grow as requests are
processed; after any interleaving of N echo requests completes, the
`/echo` counter equals its prior value plus N (increments are atomic,
none is lost); and serving the metrics snapshot (GET /metrics) leaves
the process state, counters included, unchanged. -/
theorem c8_metrics_counters (st : ProcState) (reqs : List Request)
    (h : ∀ q ∈ reqs, q.method = Method.post ∧ q.path = "/echo") :
    (processAll st reqs).metrics "/echo" = st.metrics "/echo" + reqs.length
    ∧ (∀ (st2 : ProcState) (reqs2 : List Request) (r : String),
        st2.metrics r ≤ (processAll st2 reqs2).metrics r)
    ∧ (∀ st3 : ProcState,
        (dispatch st3 { method := .get, path := "/metrics", body := none }).1 = st3) := by
  refine ⟨?_, processAll_metrics_le, fun st3 => rfl⟩
  induction reqs generalizing st with
  | nil => rfl
  | cons q rest ih =>
    have hq := h q (List.mem_cons_self q rest)
    have hstep := dispatch_echo_count st q hq.1 hq.2
    have hrest := ih (dispatch st q).1 (fun x hx => h x (List.mem_cons_of_mem q hx))
    calc (processAll (dispatch st q).1 rest).metrics "/echo"
        = ((dispatch st q).1).metrics "/echo" + rest.length := hrest
      _ = st.metrics "/echo" + 1 + rest.length := by rw [hstep]
      _ = st.metrics "/echo" + (q :: rest).length := by
          simp [List.length_cons]
          omega

/-- Witness for C8: three echo requests against the fresh process raise
the `/echo` counter from 0 to 3. -/
theorem c8_witness :
    (processAll initialState (List.replicate 3
      { method := .post, path := "/echo", body := some [("input", JVal.str "a")] })).metrics "/echo"
      = initialState.metrics "/echo" + 3 :=
  (c8_metrics_counters initialState _ (by decide)).1

/-- C9: under the default configuration (no LOG_LEVEL override, so the
threshold is WARN = 30), every log call the request handlers issue
(echo.request, echo.response, health.check, ready.check) is at
informational level, below the threshold, so a successful echo, health
or ready request emits no log output at all. -/
theorem c9_default_level_silences_handlers (cfg : LogConfig) (s : String) (ts : Timestamp)
    (h : setup_logging (Settings.resolve {}) = some cfg) :
    (∀ c ∈ (echoRoute (some [("input", JVal.str s)])).logs, c.level = LogLevel.info)
    ∧ (∀ c ∈ health_check.logs, c.level = LogLevel.info)
    ∧ (∀ c ∈ ready_check.logs, c.level = LogLevel.info)
    ∧ (echoRoute (some [("input", JVal.str s)])).logs.filterMap (emitLog cfg ts) = []
    ∧ health_check.logs.filterMap (emitLog cfg ts) = []
    ∧ ready_check.logs.filterMap (emitLog cfg ts) = [] := by
  have hcfg : cfg = { threshold := 30 } := by
    have : setup_logging (Settings.resolve {}) = some { threshold := 30 } := by decide
    rw [this] at h
    exact (Option.some.inj h).symm
  subst hcfg
  refine ⟨?_, ?_, ?_, ?_, rfl, rfl⟩
  · intro c hc
    simp [echoRoute, ToolInput.validate, echo] at hc
    rcases hc with h1 | h2
    · rw [h1]
    · rw [h2]
  · intro c hc
    simp [health_check] at hc
    rw [hc]
  · intro c hc
    simp [ready_check] at hc
    rw [hc]
  · simp [echoRoute, ToolInput.validate, echo, emitLog, LogLevel.toNat]

/-- Witness for C9: with the concretely computed default configuration,
a concrete echo call emits no log line. -/
theorem c9_witness :
    (echoRoute (some [("input", JVal.str "hi")])).logs.filterMap
      (emitLog { threshold := 30 } { year := 2026, month := 10, day := 12,
                                     hour := 0, minute := 0, second := 0 }) = [] :=
  (c9_default_level_silences_handlers { threshold := 30 } "hi"
    { year := 2026, month := 10, day := 12, hour := 0, minute := 0, second := 0 }
    (by decide)).2.2.2.1

/-- C10: the echo response is a function of the `input` field value
alone: any request body whose `input` member is the string s — whatever
extra, unrecognized members it carries — is accepted (status 200) and
answered exactly like every other body with the same `input` value, in
any process states. -/
theorem c10_echo_input_determines_response (fields : List (String × JVal)) (s : String)
    (h : List.lookup "input" fields = some (JVal.str s)) :
    echoRoute (some fields) = echo { input := s }
    ∧ (echoRoute (some fields)).status = 200
    ∧ (∀ (st st2 : ProcState) (fields2 : List (String × JVal)),
        List.lookup "input" fields2 = some (JVal.str s) →
        (dispatch st { method := .post, path := "/echo", body := some fields }).2
          = (dispatch st2 { method := .post, path := "/echo", body := some fields2 }).2) := by
  have hv : ToolInput.validate (some fields) = some { input := s } := by
    simp [ToolInput.validate, h]
  refine ⟨?_, ?_, ?_⟩
  · simp [echoRoute, hv]
  · simp [echoRoute, hv, echo]
  · intro st st2 fields2 h2
    have hv2 : ToolInput.validate (some fields2) = some { input := s } := by
      simp [ToolInput.validate, h2]
    simp [dispatch, echoRoute, hv, hv2]

/-- Witness for C10: a body carrying extra unrecognized members is
answered identically to the minimal body with the same input value. -/
theorem c10_witness :
    (dispatch initialState
      { method := .post, path := "/echo",
        body := some [("extra", JVal.int 1), ("input", JVal.str "hi"), ("more", JVal.bool true)] }).2
      = (dispatch initialState
          { method := .post, path := "/echo", body := some [("input", JVal.str "hi")] }).2 :=
  (c10_echo_input_determines_response
      [("extra", JVal.int 1), ("input", JVal.str "hi"), ("more", JVal.bool true)] "hi"
      (by decide)).2.2 initialState initialState [("input", JVal.str "hi")] (by decide)

end EchoServer
